import Mathlib

/-!
Verification development for the screenshot capture-and-crop core of a
browser chat client.  The definitions below are a shallow embedding of the
three source modules:

* `ScreenshotSelector.tsx` — the click-drag region selector,
* `ImageCropper.tsx`      — the pan/zoom crop widget,
* `page.tsx`              — the chat page: screen capture and attachment
  assembly.

Pixel coordinates are JavaScript numbers; they are modelled as rationals.
Canvas rasterization (`ctx.drawImage` + `canvas.toDataURL`) is modelled by
the record of the source rectangle sampled and the destination canvas size.
Event-handler driven component state is modelled as explicit step functions
on a state record, one constructor per DOM event the handlers subscribe to.
-/

namespace ScreenshotChat

/-- The drag selection of the click-drag selector (`interface Selection` in
`ScreenshotSelector.tsx`): two corner points in display-space pixels, the
start fixed at mouse-down, the end tracking the pointer. -/
structure Selection where
  startX : ℚ
  startY : ℚ
  endX : ℚ
  endY : ℚ
deriving DecidableEq

/-- A normalized selection box (the value computed by `getSelectionBox`). -/
structure Box where
  left : ℚ
  top : ℚ
  width : ℚ
  height : ℚ
deriving DecidableEq

/-- `getSelectionBox` from `ScreenshotSelector.tsx`: `null` when there is no
selection, otherwise the box with `left/top` the componentwise minimum of the
two corners and `width/height` the absolute coordinate differences. -/
def getSelectionBox : Option Selection → Option Box
  | none => none
  | some s =>
      some { left := min s.startX s.endX
             top := min s.startY s.endY
             width := abs (s.endX - s.startX)
             height := abs (s.endY - s.startY) }

/-- Swapping the start and end corners of a selection. -/
def swapSel (s : Selection) : Selection :=
  { startX := s.endX, startY := s.endY, endX := s.startX, endY := s.startY }

/-- The displayed image element of the click-drag selector: native pixel
size (`naturalWidth`/`naturalHeight`) and rendered display size
(`width`/`height`). -/
structure ImageInfo where
  naturalWidth : ℚ
  naturalHeight : ℚ
  width : ℚ
  height : ℚ
deriving DecidableEq

/-- A completed canvas rasterization: the source rectangle sampled out of the
image (the first four `ctx.drawImage` source arguments) and the destination
canvas size (`canvas.width`/`canvas.height`). -/
structure CropImg where
  srcX : ℚ
  srcY : ℚ
  srcW : ℚ
  srcH : ℚ
  dstW : ℚ
  dstH : ℚ
deriving DecidableEq

/-- `getCroppedImage` from `ScreenshotSelector.tsx`.  `ctxOk` is whether
`canvas.getContext` returns a drawing context; when it does not the function
throws (`Except.error`).  Otherwise it normalizes the selection with the same
min/abs arithmetic as `getSelectionBox`, computes the display-to-native
scale factors, and draws the scaled source rectangle onto a canvas sized to
that same scaled rectangle.  The `imageSrc` argument is carried but unused,
as in the source (the pixels are read from `imageElement`). -/
def getCroppedImage (imageSrc : String) (selection : Selection)
    (imageElement : ImageInfo) (ctxOk : Bool) : Except String CropImg :=
  if !ctxOk then .error "Failed to get canvas context"
  else
    let left := min selection.startX selection.endX
    let top := min selection.startY selection.endY
    let width := abs (selection.endX - selection.startX)
    let height := abs (selection.endY - selection.startY)
    let scaleX := imageElement.naturalWidth / imageElement.width
    let scaleY := imageElement.naturalHeight / imageElement.height
    .ok { srcX := left * scaleX
          srcY := top * scaleY
          srcW := width * scaleX
          srcH := height * scaleY
          dstW := width * scaleX
          dstH := height * scaleY }

/-- An invocation of a selector's completion callback: either a cropped
rasterization, or (pan/zoom `skip`) the original image source string
forwarded unchanged. -/
inductive Emission where
  | cropped (img : CropImg)
  | original (src : String)
deriving DecidableEq

/-- Component state of `ScreenshotSelector` plus the observable effects of
its callbacks: `emitted` records each `onSelectionComplete` invocation,
`cancelCount` each `onCancel` invocation, `errLog` each `console.error`.
`pendingCrop` holds the selection captured by an in-flight (awaited)
`getCroppedImage` call started by `handleMouseUp`; `image` is
`imageRef.current`. -/
structure SelState where
  imageSrc : String
  image : Option ImageInfo
  isSelecting : Bool
  selection : Option Selection
  pendingCrop : Option Selection
  emitted : List Emission
  cancelCount : Nat
  errLog : Nat
deriving DecidableEq

/-- The DOM events the click-drag selector subscribes to.  `cropDone ctxOk`
is the resolution of the awaited `getCroppedImage` started by a mouse-up;
`ctxOk` says whether a canvas context was available to it. -/
inductive SEvent where
  | mouseDown (x y : ℚ)
  | mouseMove (x y : ℚ)
  | mouseUp
  | escapeKey
  | cropDone (ctxOk : Bool)

/-- One event-handler execution of `ScreenshotSelector`, clause by clause
from the source: `handleMouseDown` starts a fresh degenerate selection;
`handleMouseMove` moves only the end corner while selecting;
`handleMouseUp` returns early unless selecting with a selection and a
rendered image, silently clears a selection whose box is under 10 display
pixels in either dimension, and otherwise starts the awaited crop;
`handleKeyDown` on Escape invokes `onCancel` and nothing else; the crop
resolution emits the image on success and logs on failure, then clears the
selection state (the statements after the `try/catch`). -/
def sstep (s : SelState) : SEvent → SelState
  | .mouseDown x y =>
      { s with isSelecting := true
               selection := some { startX := x, startY := y, endX := x, endY := y } }
  | .mouseMove x y =>
      match s.isSelecting, s.selection with
      | true, some sel => { s with selection := some { sel with endX := x, endY := y } }
      | _, _ => s
  | .mouseUp =>
      match s.isSelecting, s.selection, s.image with
      | true, some sel, some _ =>
          match getSelectionBox (some sel) with
          | none => { s with isSelecting := false, selection := none }
          | some box =>
              if box.width < 10 ∨ box.height < 10 then
                { s with isSelecting := false, selection := none }
              else
                { s with pendingCrop := some sel }
      | _, _, _ => s
  | .escapeKey => { s with cancelCount := s.cancelCount + 1 }
  | .cropDone ctxOk =>
      match s.pendingCrop, s.image with
      | some sel, some img =>
          match getCroppedImage s.imageSrc sel img ctxOk with
          | .ok out =>
              { s with emitted := s.emitted ++ [.cropped out]
                       isSelecting := false, selection := none, pendingCrop := none }
          | .error _ =>
              { s with errLog := s.errLog + 1
                       isSelecting := false, selection := none, pendingCrop := none }
      | _, _ => s

/-- A pan offset (`Point` from react-easy-crop). -/
structure Point where
  x : ℚ
  y : ℚ
deriving DecidableEq

/-- A crop rectangle in native pixel coordinates (`Area` from
react-easy-crop, as reported to `onCropComplete`). -/
structure Area where
  x : ℚ
  y : ℚ
  width : ℚ
  height : ℚ
deriving DecidableEq

/-- `getCroppedImg` from `ImageCropper.tsx`: throws when no 2d context is
available; otherwise draws exactly the native-pixel rectangle `pixelCrop`
onto a canvas of the same pixel dimensions.  `imageSrc` is the decoded
source image, carried as in the source. -/
def getCroppedImg (imageSrc : String) (pixelCrop : Area) (ctxOk : Bool) :
    Except String CropImg :=
  if !ctxOk then .error "No 2d context"
  else
    .ok { srcX := pixelCrop.x
          srcY := pixelCrop.y
          srcW := pixelCrop.width
          srcH := pixelCrop.height
          dstW := pixelCrop.width
          dstH := pixelCrop.height }

/-- State of the `ImageCropper` widget as wired into the chat page
(`onCropComplete := handleCropComplete`, `onCancel := handleCropCancel`,
both of which clear `tempScreenshot` and so unmount the widget).
`mounted` is whether `tempScreenshot` still holds this image; `crop`,
`zoom`, `croppedAreaPixels`, `aspect` and `isProcessing` are the widget's
useState fields; `pendingRaster` holds the pixel crop captured by an
in-flight (awaited) `getCroppedImg` call; `emitted` records each
`onCropComplete` invocation, `cancelCount` each `onCancel`, `errLog` each
`console.error`. -/
structure CropperState where
  imageSrc : String
  mounted : Bool
  crop : Point
  zoom : ℚ
  croppedAreaPixels : Option Area
  aspect : Option ℚ
  isProcessing : Bool
  pendingRaster : Option Area
  emitted : List Emission
  cancelCount : Nat
  errLog : Nat
deriving DecidableEq

/-- The widget's initial state: `crop = (0,0)`, `zoom = 1`, no reported crop
area, free aspect, not processing. -/
def initialCropper (imageSrc : String) : CropperState :=
  { imageSrc := imageSrc
    mounted := true
    crop := { x := 0, y := 0 }
    zoom := 1
    croppedAreaPixels := none
    aspect := none
    isProcessing := false
    pendingRaster := none
    emitted := []
    cancelCount := 0
    errLog := 0 }

/-- The value the zoom slider reports for its `k`-th position: the control
has `min 1`, `max 3`, `step 0.1`, so the reachable values are exactly
`(10 + k) / 10` for `k = 0, …, 20` — the structural constraint of the
control's own min/max. -/
def sliderValue (k : Fin 21) : ℚ := (10 + ((k : ℕ) : ℚ)) / 10

/-- The events the pan/zoom widget reacts to.  `viewportZoom` is the
viewport's `onZoomChange` callback (react-easy-crop, whose default zoom
bounds are the same 1 and 3), `sliderZoom` the range input, `cropAreaChange`
the viewport reporting a native-pixel crop area, `rasterDone` the resolution
of an awaited `getCroppedImg` (with whether a 2d context was available). -/
inductive CEvent where
  | cropChange (p : Point)
  | viewportZoom (z : ℚ)
  | sliderZoom (k : Fin 21)
  | cropAreaChange (a : Area)
  | setAspect (r : Option ℚ)
  | applyCrop
  | enterKey
  | escapeKey
  | cancelClick
  | skipCrop
  | rasterDone (ctxOk : Bool)

/-- The synchronous opening of `handleApplyCrop`: return at once when no
crop area has been reported; otherwise set `isProcessing` and start the
awaited rasterization of the current `croppedAreaPixels`. -/
def applyStart (s : CropperState) : CropperState :=
  match s.croppedAreaPixels with
  | none => s
  | some a => { s with isProcessing := true, pendingRaster := some a }

/-- One event-handler execution of the page-wired `ImageCropper`.  Handlers
bound to the widget's own DOM (viewport callbacks, slider, buttons, the
document keydown listener installed while mounted) are inert once the widget
is unmounted; the resolution of an already-started rasterization is not — the
promise continuation runs regardless, emitting through `onCropComplete` on
success (which unmounts via `handleCropComplete`) and logging on failure,
then clearing `isProcessing` in the `finally`.  Escape and the Cancel button
invoke `onCancel` (unmounting); Enter and the Apply button start
`handleApplyCrop` only when not already processing; Skip Crop forwards
`imageSrc` itself to `onCropComplete`. -/
def cstep (s : CropperState) : CEvent → CropperState
  | .cropChange p => if s.mounted then { s with crop := p } else s
  | .viewportZoom z => if s.mounted then { s with zoom := z } else s
  | .sliderZoom k => if s.mounted then { s with zoom := sliderValue k } else s
  | .cropAreaChange a => if s.mounted then { s with croppedAreaPixels := some a } else s
  | .setAspect r => if s.mounted then { s with aspect := r } else s
  | .applyCrop => if s.mounted && !s.isProcessing then applyStart s else s
  | .enterKey => if s.mounted && !s.isProcessing then applyStart s else s
  | .escapeKey =>
      if s.mounted then { s with cancelCount := s.cancelCount + 1, mounted := false } else s
  | .cancelClick =>
      if s.mounted then { s with cancelCount := s.cancelCount + 1, mounted := false } else s
  | .skipCrop =>
      if s.mounted then
        { s with emitted := s.emitted ++ [.original s.imageSrc], mounted := false }
      else s
  | .rasterDone ctxOk =>
      match s.pendingRaster with
      | none => s
      | some a =>
          match getCroppedImg s.imageSrc a ctxOk with
          | .ok out =>
              { s with emitted := s.emitted ++ [.cropped out]
                       mounted := false, isProcessing := false, pendingRaster := none }
          | .error _ =>
              { s with errLog := s.errLog + 1
                       isProcessing := false, pendingRaster := none }

/-- Running the widget over a list of events in order. -/
def crun (s : CropperState) : List CEvent → CropperState
  | [] => s
  | e :: es => crun (cstep s e) es

/-- Events whose payloads respect their producers' contracts: the viewport's
`onZoomChange` only reports values inside its own zoom bounds `[1, 3]`
(react-easy-crop's defaults, which the widget does not override).  All other
events are structurally constrained already. -/
def validEvent : CEvent → Prop
  | .viewportZoom z => 1 ≤ z ∧ z ≤ 3
  | _ => True

/-- A part of a chat message: plain text or the screenshot image part
(`ScreenshotPart` in the types module: tag `image-screenshot` and a data
record holding the image url). -/
inductive MessagePart where
  | text (value : String)
  | imageScreenshot (url : String)
deriving DecidableEq

/-- A chat message as assembled by the page: identifier, role, text content
and ordered parts. -/
structure Message where
  id : Nat
  role : String
  content : String
  parts : List MessagePart
deriving DecidableEq

/-- The page state: the conversation's message list, the fresh-identifier
supply, and `tempScreenshot` (the captured image awaiting cropping; the
`ImageCropper` is mounted exactly while it is set).  `crypto.randomUUID()`
is modelled as a counter `nextId` that never repays an identifier: freshness
of each issued id is the counter invariant `∀ m ∈ messages, m.id < nextId`. -/
structure ChatState where
  messages : List Message
  nextId : Nat
  tempScreenshot : Option String
deriving DecidableEq

/-- The message literal built inside `handleCropComplete` in `page.tsx`
(the spec's `buildImageMessage`): a fresh id, role `user`, empty content,
and exactly one `image-screenshot` part holding the url. -/
def buildImageMessage (id : Nat) (url : String) : Message :=
  { id := id, role := "user", content := "", parts := [.imageScreenshot url] }

/-- `handleCropComplete` from `page.tsx`: append the new image message to
the previous messages (`[...prevMessages, newMessage]`) and clear
`tempScreenshot`. -/
def handleCropComplete (st : ChatState) (croppedImageUrl : String) : ChatState :=
  { st with messages := st.messages ++ [buildImageMessage st.nextId croppedImageUrl]
            nextId := st.nextId + 1
            tempScreenshot := none }

/-- `handleCropCancel` from `page.tsx`: clear `tempScreenshot` only. -/
def handleCropCancel (st : ChatState) : ChatState :=
  { st with tempScreenshot := none }

/-- The platform behaviour a `captureScreen` run encounters:
whether `navigator.mediaDevices.getDisplayMedia` exists, whether that call
rejects (with the rejection's error name) or resolves with a stream, whether
`video.play()` resolves, whether `canvas.getContext` yields a context (when
it does not, the unchecked `ctx.drawImage` throws), and the data url the
successful snapshot encodes to. -/
structure CaptureEnv where
  supported : Bool
  displayMediaError : Option String
  playOk : Bool
  ctxOk : Bool
  dataURL : String
deriving DecidableEq

/-- The observable effects of one `captureScreen` run: the alert shown (the
only visible notification primitive the page uses), whether the catch block
logged to the console, whether a display stream was acquired, and whether
`stream.getTracks().forEach(track => track.stop())` was reached. -/
structure CaptureEffects where
  alerted : Option String
  consoleError : Bool
  streamAcquired : Bool
  tracksStopped : Bool
deriving DecidableEq

/-- `captureScreen` from `page.tsx`, path by path: the support check alerts
and returns before any acquisition; a `getDisplayMedia` rejection jumps to
the catch (console log only); after the stream is acquired, a `play` failure
or a missing 2d context also jump to the catch — which only logs, so the
track-stopping statement is never reached on those paths; only the full
success path stops the tracks and stores the data url in `tempScreenshot`.
The message list is never touched. -/
def captureScreen (st : ChatState) (env : CaptureEnv) : ChatState × CaptureEffects :=
  if !env.supported then
    (st, { alerted := some "Screen capture is not supported in your browser"
           consoleError := false, streamAcquired := false, tracksStopped := false })
  else
    match env.displayMediaError with
    | some _ =>
        (st, { alerted := none, consoleError := true
               streamAcquired := false, tracksStopped := false })
    | none =>
        if !env.playOk then
          (st, { alerted := none, consoleError := true
                 streamAcquired := true, tracksStopped := false })
        else if !env.ctxOk then
          (st, { alerted := none, consoleError := true
                 streamAcquired := true, tracksStopped := false })
        else
          ({ st with tempScreenshot := some env.dataURL },
           { alerted := none, consoleError := false
             streamAcquired := true, tracksStopped := true })

/-- Claim C5: for every SelectionRect with arbitrary corner order, the
derived NormalizedBox is `left = min startX endX`, `top = min startY endY`,
`width = abs (endX - startX)`, `height = abs (endY - startY)`; hence width
and height are nonnegative and the box is invariant under swapping the start
and end corners; a drag from (300,300) to (100,100) yields
left 100, top 100, width 200, height 200. -/
theorem C5_normalized_box (s : Selection) :
    (∃ b, getSelectionBox (some s) = some b ∧
        b.left = min s.startX s.endX ∧ b.top = min s.startY s.endY ∧
        b.width = abs (s.endX - s.startX) ∧ b.height = abs (s.endY - s.startY) ∧
        0 ≤ b.width ∧ 0 ≤ b.height) ∧
    getSelectionBox (some (swapSel s)) = getSelectionBox (some s) ∧
    getSelectionBox (some { startX := 300, startY := 300, endX := 100, endY := 100 }) =
      some { left := 100, top := 100, width := 200, height := 200 } := by
  refine ⟨⟨_, rfl, rfl, rfl, rfl, rfl, abs_nonneg _, abs_nonneg _⟩, ?_, ?_⟩
  · simp [getSelectionBox, swapSel, min_comm, abs_sub_comm]
  · simp only [getSelectionBox, Option.some.injEq, Box.mk.injEq]
    norm_num

/-- Claim C4: the click-drag crop samples exactly the native-pixel rectangle
obtained by scaling the NormalizedBox of the selection by
`naturalWidth / width` and `naturalHeight / height` of the displayed image,
and the output canvas has those same post-scale dimensions; in particular a
1000×800 frame displayed at 500×400 with display box
(left 50, top 50, width 50, height 50) samples the native rectangle
(100, 100, 100, 100) into a 100×100 output. -/
theorem C4_crop_scale (imageSrc : String) (sel : Selection) (img : ImageInfo) (b : Box)
    (hb : getSelectionBox (some sel) = some b) :
    getCroppedImage imageSrc sel img true =
      .ok { srcX := b.left * (img.naturalWidth / img.width)
            srcY := b.top * (img.naturalHeight / img.height)
            srcW := b.width * (img.naturalWidth / img.width)
            srcH := b.height * (img.naturalHeight / img.height)
            dstW := b.width * (img.naturalWidth / img.width)
            dstH := b.height * (img.naturalHeight / img.height) } ∧
    getCroppedImage imageSrc { startX := 50, startY := 50, endX := 100, endY := 100 }
        { naturalWidth := 1000, naturalHeight := 800, width := 500, height := 400 } true =
      .ok { srcX := 100, srcY := 100, srcW := 100, srcH := 100
            dstW := 100, dstH := 100 } := by
  constructor
  · simp only [getSelectionBox, Option.some.injEq] at hb
    subst hb
    rfl
  · simp only [getCroppedImage, Bool.not_true, Bool.false_eq_true, if_false,
      Except.ok.injEq, CropImg.mk.injEq]
    norm_num

/-- Witness for C4: the concrete 2×-scale round-trip, with the normalized
box hypothesis discharged at the concrete selection. -/
theorem C4_crop_scale_witness :
    getCroppedImage "shot" { startX := 50, startY := 50, endX := 100, endY := 100 }
        { naturalWidth := 1000, naturalHeight := 800, width := 500, height := 400 } true =
      .ok { srcX := 100, srcY := 100, srcW := 100, srcH := 100
            dstW := 100, dstH := 100 } :=
  (C4_crop_scale "shot" { startX := 50, startY := 50, endX := 100, endY := 100 }
    { naturalWidth := 1000, naturalHeight := 800, width := 500, height := 400 }
    { left := 50, top := 50, width := 50, height := 50 }
    (by simp only [getSelectionBox, Option.some.injEq, Box.mk.injEq]; norm_num)).2

/-- Claim C6: a pointer-up completing a selection whose box is under 10
display pixels wide or tall is discarded silently: the selector state
returns to Idle (not selecting, selection cleared) and nothing else changes
— no emission, no error log, no cancellation. -/
theorem C6_small_selection_silent_discard (s : SelState) (sel : Selection) (b : Box)
    (hsel : s.isSelecting = true) (hs : s.selection = some sel)
    (himg : s.image.isSome = true) (hb : getSelectionBox (some sel) = some b)
    (hsmall : b.width < 10 ∨ b.height < 10) :
    sstep s .mouseUp = { s with isSelecting := false, selection := none } := by
  obtain ⟨img, himg2⟩ := Option.isSome_iff_exists.mp himg
  simp only [sstep, hsel, hs, himg2, hb]
  rw [if_pos hsmall]

/-- Witness for C6: a drag from (100,100) to (102,102) — a 2×2 box — is
dropped with no emission and the selector back in Idle. -/
theorem C6_small_selection_silent_discard_witness :
    sstep
      { imageSrc := "shot"
        image := some { naturalWidth := 1000, naturalHeight := 800, width := 500, height := 400 }
        isSelecting := true
        selection := some { startX := 100, startY := 100, endX := 102, endY := 102 }
        pendingCrop := none, emitted := [], cancelCount := 0, errLog := 0 } .mouseUp =
      { imageSrc := "shot"
        image := some { naturalWidth := 1000, naturalHeight := 800, width := 500, height := 400 }
        isSelecting := false
        selection := none
        pendingCrop := none, emitted := [], cancelCount := 0, errLog := 0 } :=
  C6_small_selection_silent_discard _
    { startX := 100, startY := 100, endX := 102, endY := 102 }
    { left := 100, top := 100, width := 2, height := 2 }
    rfl rfl rfl
    (by simp only [getSelectionBox, Option.some.injEq, Box.mk.injEq]; norm_num)
    (Or.inl (by norm_num))

/-- Claim C10: every pointer-up that passes the initial guards (selecting,
with a selection and a rendered image) ends with the selector in Idle
whatever the outcome: a too-small box is cleared at once, and otherwise the
awaited crop — whether it succeeds or fails for want of a drawing context —
clears the selection afterwards; on failure the completion callback is not
invoked and the error is only logged, the selection discarded rather than
restored. -/
theorem C10_mouseup_always_ends_idle (s : SelState) (sel : Selection) (img : ImageInfo)
    (b : Box)
    (hsel : s.isSelecting = true) (hs : s.selection = some sel) (himg : s.image = some img)
    (hb : getSelectionBox (some sel) = some b) :
    ((b.width < 10 ∨ b.height < 10) →
      sstep s .mouseUp = { s with isSelecting := false, selection := none }) ∧
    (¬(b.width < 10 ∨ b.height < 10) →
      sstep s .mouseUp = { s with pendingCrop := some sel } ∧
      (∀ ctxOk, (sstep (sstep s .mouseUp) (.cropDone ctxOk)).isSelecting = false ∧
        (sstep (sstep s .mouseUp) (.cropDone ctxOk)).selection = none ∧
        (sstep (sstep s .mouseUp) (.cropDone ctxOk)).pendingCrop = none) ∧
      (sstep (sstep s .mouseUp) (.cropDone false)).emitted = s.emitted ∧
      (sstep (sstep s .mouseUp) (.cropDone false)).errLog = s.errLog + 1 ∧
      (sstep (sstep s .mouseUp) (.cropDone false)).cancelCount = s.cancelCount) := by
  constructor
  · intro hsmall
    simp only [sstep, hsel, hs, himg, hb]
    rw [if_pos hsmall]
  · intro hbig
    have hup : sstep s .mouseUp = { s with pendingCrop := some sel } := by
      simp only [sstep, hsel, hs, himg, hb]
      rw [if_neg hbig]
    refine ⟨hup, ?_, ?_, ?_, ?_⟩
    · intro ctxOk
      rw [hup]
      cases ctxOk <;> simp [sstep, himg, getCroppedImage]
    · rw [hup]; simp [sstep, himg, getCroppedImage]
    · rw [hup]; simp [sstep, himg, getCroppedImage]
    · rw [hup]; simp [sstep, himg, getCroppedImage]

/-- Witness for C10: a 100×100 drag whose rasterization finds no canvas
context — the error is logged, nothing is emitted, and the selector ends in
Idle. -/
theorem C10_mouseup_always_ends_idle_witness :
    (sstep (sstep
      { imageSrc := "shot"
        image := some { naturalWidth := 1000, naturalHeight := 800, width := 500, height := 400 }
        isSelecting := true
        selection := some { startX := 100, startY := 100, endX := 200, endY := 200 }
        pendingCrop := none, emitted := [], cancelCount := 0, errLog := 0 } .mouseUp)
        (.cropDone false)).emitted = [] ∧
    (sstep (sstep
      { imageSrc := "shot"
        image := some { naturalWidth := 1000, naturalHeight := 800, width := 500, height := 400 }
        isSelecting := true
        selection := some { startX := 100, startY := 100, endX := 200, endY := 200 }
        pendingCrop := none, emitted := [], cancelCount := 0, errLog := 0 } .mouseUp)
        (.cropDone false)).errLog = 1 :=
  by
    have h := (C10_mouseup_always_ends_idle
      { imageSrc := "shot"
        image := some { naturalWidth := 1000, naturalHeight := 800, width := 500, height := 400 }
        isSelecting := true
        selection := some { startX := 100, startY := 100, endX := 200, endY := 200 }
        pendingCrop := none, emitted := [], cancelCount := 0, errLog := 0 }
      { startX := 100, startY := 100, endX := 200, endY := 200 }
      { naturalWidth := 1000, naturalHeight := 800, width := 500, height := 400 }
      { left := 100, top := 100, width := 100, height := 100 }
      rfl rfl rfl
      (by simp only [getSelectionBox, Option.some.injEq, Box.mk.injEq]; norm_num)).2
      (by norm_num)
    exact ⟨h.2.2.1, h.2.2.2.1⟩

/-- The slider's reachable values all lie in the closed interval from 1 to
3: its min, max and step make `(10 + k) / 10` for `k ≤ 20` the only
producible values. -/
theorem sliderValue_bounds (k : Fin 21) : 1 ≤ sliderValue k ∧ sliderValue k ≤ 3 := by
  have hk : ((k : ℕ) : ℚ) ≤ 20 := by exact_mod_cast Nat.le_of_lt_succ k.isLt
  have hk0 : (0 : ℚ) ≤ ((k : ℕ) : ℚ) := Nat.cast_nonneg _
  unfold sliderValue
  constructor
  · rw [le_div_iff₀ (by norm_num : (0 : ℚ) < 10)]
    linarith
  · rw [div_le_iff₀ (by norm_num : (0 : ℚ) < 10)]
    linarith

/-- A single event preserves the zoom bounds when its payload respects its
producer's contract. -/
theorem cstep_zoom_bounds (s : CropperState) (e : CEvent)
    (hz : 1 ≤ s.zoom ∧ s.zoom ≤ 3) (hv : validEvent e) :
    1 ≤ (cstep s e).zoom ∧ (cstep s e).zoom ≤ 3 := by
  cases e with
  | viewportZoom z =>
      obtain ⟨h1, h2⟩ : 1 ≤ z ∧ z ≤ 3 := hv
      by_cases hm : s.mounted <;> simp [cstep, hm, h1, h2, hz]
  | sliderZoom k =>
      by_cases hm : s.mounted <;> simp [cstep, hm, hz, sliderValue_bounds k]
  | cropChange p => by_cases hm : s.mounted <;> simp [cstep, hm, hz]
  | cropAreaChange a => by_cases hm : s.mounted <;> simp [cstep, hm, hz]
  | setAspect r => by_cases hm : s.mounted <;> simp [cstep, hm, hz]
  | applyCrop =>
      simp only [cstep]
      split
      · unfold applyStart
        split <;> exact hz
      · exact hz
  | enterKey =>
      simp only [cstep]
      split
      · unfold applyStart
        split <;> exact hz
      · exact hz
  | escapeKey => by_cases hm : s.mounted <;> simp [cstep, hm, hz]
  | cancelClick => by_cases hm : s.mounted <;> simp [cstep, hm, hz]
  | skipCrop => by_cases hm : s.mounted <;> simp [cstep, hm, hz]
  | rasterDone ctxOk =>
      simp only [cstep]
      split
      · exact hz
      · split <;> exact hz

/-- Claim C8: from any state whose zoom is within the interval from 1 to 3
(the initial state starts at 1), every run of widget events keeps the zoom
in that interval: slider values are structurally confined to it by the
control's min/max/step, and the viewport callback only reports values
within the viewport's own zoom bounds. -/
theorem C8_zoom_always_in_range (s : CropperState) (evs : List CEvent)
    (hz : 1 ≤ s.zoom ∧ s.zoom ≤ 3) (hv : ∀ e ∈ evs, validEvent e) :
    1 ≤ (crun s evs).zoom ∧ (crun s evs).zoom ≤ 3 := by
  induction evs generalizing s with
  | nil => exact hz
  | cons e es ih =>
      exact ih (cstep s e) (cstep_zoom_bounds s e hz (hv e (by simp)))
        (fun f hf => hv f (by simp [hf]))

/-- Witness for C8: starting from the initial state, a viewport zoom to 2
followed by the slider's top position keeps zoom within bounds. -/
theorem C8_zoom_always_in_range_witness :
    1 ≤ (crun (initialCropper "shot") [.viewportZoom 2, .sliderZoom 20]).zoom ∧
    (crun (initialCropper "shot") [.viewportZoom 2, .sliderZoom 20]).zoom ≤ 3 :=
  C8_zoom_always_in_range (initialCropper "shot") [.viewportZoom 2, .sliderZoom 20]
    (by norm_num [initialCropper])
    (by
      intro e he
      simp only [List.mem_cons, List.not_mem_nil, or_false] at he
      rcases he with he | he <;> subst he <;> simp [validEvent] <;> norm_num)

/-- Claim C9: Skip Crop forwards the widget's own image source to the
completion callback unchanged — the emission is `Emission.original`
applied to the very `imageSrc` the widget was given, and nothing else of
the observable record changes apart from the unmount. -/
theorem C9_skip_emits_original (s : CropperState) (hm : s.mounted = true) :
    cstep s .skipCrop =
      { s with emitted := s.emitted ++ [.original s.imageSrc], mounted := false } := by
  simp [cstep, hm]

/-- Witness for C9: skipping from the freshly mounted widget emits exactly
the original source string. -/
theorem C9_skip_emits_original_witness :
    cstep (initialCropper "shot") .skipCrop =
      { initialCropper "shot" with emitted := [.original "shot"], mounted := false } :=
  C9_skip_emits_original (initialCropper "shot") rfl

/-- Once the widget is unmounted and no rasterization is in flight, every
further event is inert. -/
theorem cstep_unmounted_inert (s : CropperState) (e : CEvent)
    (hm : s.mounted = false) (hp : s.pendingRaster = none) : cstep s e = s := by
  cases e <;> simp [cstep, hm, hp]

/-- Runs from an unmounted state with no in-flight rasterization change
nothing. -/
theorem crun_unmounted_inert (s : CropperState) (evs : List CEvent)
    (hm : s.mounted = false) (hp : s.pendingRaster = none) : crun s evs = s := by
  induction evs with
  | nil => rfl
  | cons e es ih =>
      show crun (cstep s e) es = s
      rw [cstep_unmounted_inert s e hm hp]
      exact ih

/-- Counterexample to claim C2 as stated: with a reported crop area, start
an apply (Enter) so a rasterization is in flight, then press Escape — the
cancellation fires and nothing has been emitted at that point, yet when the
in-flight rasterization resolves the completion callback still runs and an
attachment is emitted after the escape. -/
theorem C2_counterexample :
    (crun (initialCropper "shot")
        [.cropAreaChange { x := 0, y := 0, width := 120, height := 80 }, .enterKey,
         .escapeKey]).cancelCount = 1 ∧
    (crun (initialCropper "shot")
        [.cropAreaChange { x := 0, y := 0, width := 120, height := 80 }, .enterKey,
         .escapeKey]).emitted = [] ∧
    (crun (initialCropper "shot")
        [.cropAreaChange { x := 0, y := 0, width := 120, height := 80 }, .enterKey,
         .escapeKey, .rasterDone true]).emitted =
      [.cropped { srcX := 0, srcY := 0, srcW := 120, srcH := 80
                  dstW := 120, dstH := 80 }] :=
  ⟨rfl, rfl, rfl⟩

/-- Claim C2 (amended): an escape signal in any mounted state of either
selector triggers cancellation (the cancel callback fires) and emits
nothing itself; and provided no applyCrop rasterization is in flight at
that moment, no attachment is ever emitted after the escape — whereas an
already in-flight rasterization still invokes the completion callback when
it resolves (the counterexample above). -/
theorem C2_escape_cancels_and_no_emission_after (s : CropperState) (t : SelState)
    (evs : List CEvent) (hm : s.mounted = true) (hp : s.pendingRaster = none) :
    (cstep s .escapeKey).cancelCount = s.cancelCount + 1 ∧
    (cstep s .escapeKey).emitted = s.emitted ∧
    (crun (cstep s .escapeKey) evs).emitted = s.emitted ∧
    (sstep t .escapeKey).cancelCount = t.cancelCount + 1 ∧
    (sstep t .escapeKey).emitted = t.emitted := by
  have h1 : cstep s .escapeKey =
      { s with cancelCount := s.cancelCount + 1, mounted := false } := by
    simp [cstep, hm]
  refine ⟨by rw [h1], by rw [h1], ?_, rfl, rfl⟩
  rw [h1, crun_unmounted_inert
    { s with cancelCount := s.cancelCount + 1, mounted := false } evs rfl hp]

/-- Witness for C2 (amended): escape from the freshly mounted widget (no
rasterization in flight) cancels, and later skip-clicks and raster
resolutions emit nothing. -/
theorem C2_escape_cancels_and_no_emission_after_witness :
    (cstep (initialCropper "shot") .escapeKey).cancelCount = 1 ∧
    (cstep (initialCropper "shot") .escapeKey).emitted = [] ∧
    (crun (cstep (initialCropper "shot") .escapeKey)
        [.skipCrop, .applyCrop, .rasterDone true]).emitted = [] ∧
    (sstep
      { imageSrc := "shot"
        image := some { naturalWidth := 1000, naturalHeight := 800, width := 500, height := 400 }
        isSelecting := true
        selection := some { startX := 100, startY := 100, endX := 200, endY := 200 }
        pendingCrop := none, emitted := [], cancelCount := 0, errLog := 0 }
      .escapeKey).cancelCount = 1 ∧
    (sstep
      { imageSrc := "shot"
        image := some { naturalWidth := 1000, naturalHeight := 800, width := 500, height := 400 }
        isSelecting := true
        selection := some { startX := 100, startY := 100, endX := 200, endY := 200 }
        pendingCrop := none, emitted := [], cancelCount := 0, errLog := 0 }
      .escapeKey).emitted = [] :=
  C2_escape_cancels_and_no_emission_after (initialCropper "shot")
    { imageSrc := "shot"
      image := some { naturalWidth := 1000, naturalHeight := 800, width := 500, height := 400 }
      isSelecting := true
      selection := some { startX := 100, startY := 100, endX := 200, endY := 200 }
      pendingCrop := none, emitted := [], cancelCount := 0, errLog := 0 }
    [.skipCrop, .applyCrop, .rasterDone true] rfl rfl

/-- Claim C7: building an image message yields role `user`, empty content,
and exactly one image part holding the url, under a fresh identifier (the
id-supply invariant: every existing id is below the counter); appending it
is pure list append, so every previously appended message is preserved
unchanged, the new id collides with no existing one, and the freshness
invariant is maintained. -/
theorem C7_image_message_appended (st : ChatState) (url : String)
    (hfresh : ∀ m ∈ st.messages, m.id < st.nextId) :
    (handleCropComplete st url).messages =
      st.messages ++ [buildImageMessage st.nextId url] ∧
    (buildImageMessage st.nextId url).role = "user" ∧
    (buildImageMessage st.nextId url).content = "" ∧
    (buildImageMessage st.nextId url).parts = [.imageScreenshot url] ∧
    (∀ m ∈ st.messages, m.id ≠ (buildImageMessage st.nextId url).id) ∧
    (∀ m ∈ (handleCropComplete st url).messages,
      m.id < (handleCropComplete st url).nextId) := by
  refine ⟨rfl, rfl, rfl, rfl, ?_, ?_⟩
  · intro m hm
    exact Nat.ne_of_lt (hfresh m hm)
  · intro m hm
    simp only [handleCropComplete, List.mem_append, List.mem_singleton] at hm
    rcases hm with hm | hm
    · exact Nat.lt_succ_of_lt (hfresh m hm)
    · subst hm
      exact Nat.lt_succ_self _

/-- Witness for C7: appending a screenshot message to a one-message
conversation preserves the old message and adds the image message at the
end. -/
theorem C7_image_message_appended_witness :
    (handleCropComplete
      { messages := [{ id := 0, role := "user", content := "hi", parts := [.text "hi"] }]
        nextId := 1, tempScreenshot := some "shot" } "crop").messages =
      [{ id := 0, role := "user", content := "hi", parts := [.text "hi"] },
       buildImageMessage 1 "crop"] :=
  (C7_image_message_appended
    { messages := [{ id := 0, role := "user", content := "hi", parts := [.text "hi"] }]
      nextId := 1, tempScreenshot := some "shot" } "crop"
    (by
      intro m hm
      rw [List.mem_singleton] at hm
      subst hm
      exact Nat.lt_succ_self 0)).1

/-- Counterexample to claim C1 as stated: an execution that acquires the
display stream and then fails rasterization (no 2d drawing context, so the
unchecked `drawImage` throws into the catch) never reaches the
track-stopping statement — the stream outlives the call. -/
theorem C1_counterexample :
    (captureScreen { messages := [], nextId := 0, tempScreenshot := none }
        { supported := true, displayMediaError := none, playOk := true, ctxOk := false
          dataURL := "shot" }).2.streamAcquired = true ∧
    (captureScreen { messages := [], nextId := 0, tempScreenshot := none }
        { supported := true, displayMediaError := none, playOk := true, ctxOk := false
          dataURL := "shot" }).2.tracksStopped = false :=
  ⟨rfl, rfl⟩

/-- Claim C1 (amended): the stream's tracks are stopped exactly on the full
success path — support present, acquisition, first-frame decode and
rasterization all succeeding; on any path that acquires the stream but then
fails, the catch handler only logs, the tracks stay running (the stream
outlives the call), and the page state is unchanged. -/
theorem C1_tracks_stopped_only_on_success (st : ChatState) (env : CaptureEnv) :
    (captureScreen st env).2.tracksStopped =
      (env.supported && env.displayMediaError.isNone && env.playOk && env.ctxOk) ∧
    ((captureScreen st env).2.streamAcquired = true →
      (captureScreen st env).2.tracksStopped = false →
      (captureScreen st env).2.consoleError = true ∧ (captureScreen st env).1 = st) := by
  obtain ⟨sup, dme, play, ctx, url⟩ := env
  cases sup <;> cases dme <;> cases play <;> cases ctx <;> simp [captureScreen]

/-- Witness for C1 (amended): on the acquired-then-rasterization-failed
path the error is only logged and the page state is untouched. -/
theorem C1_tracks_stopped_only_on_success_witness :
    (captureScreen { messages := [], nextId := 0, tempScreenshot := none }
        { supported := true, displayMediaError := none, playOk := false, ctxOk := true
          dataURL := "shot" }).2.consoleError = true ∧
    (captureScreen { messages := [], nextId := 0, tempScreenshot := none }
        { supported := true, displayMediaError := none, playOk := false, ctxOk := true
          dataURL := "shot" }).1 =
      { messages := [], nextId := 0, tempScreenshot := none } :=
  (C1_tracks_stopped_only_on_success
    { messages := [], nextId := 0, tempScreenshot := none }
    { supported := true, displayMediaError := none, playOk := false, ctxOk := true
      dataURL := "shot" }).2 rfl rfl

/-- Counterexample to claim C3 as stated: a permission-denied rejection of
`getDisplayMedia` reaches only the catch handler, which logs to the console
— no visible notification is shown for that error. -/
theorem C3_counterexample :
    (captureScreen { messages := [], nextId := 0, tempScreenshot := none }
        { supported := true, displayMediaError := some "NotAllowedError", playOk := true
          ctxOk := true, dataURL := "shot" }).2.consoleError = true ∧
    (captureScreen { messages := [], nextId := 0, tempScreenshot := none }
        { supported := true, displayMediaError := some "NotAllowedError", playOk := true
          ctxOk := true, dataURL := "shot" }).2.alerted = none :=
  ⟨rfl, rfl⟩

/-- Claim C3 (amended): an alert — the only visible notification the page
uses — is shown exactly when the unsupported-platform check fires; every
other error, whether a rejected acquisition (permission denied or any other
error name), a first-frame decode failure, or a missing drawing context, is
only logged to the console with no visible notification.  Every path that
does not reach the success cleanup aborts with the page state unchanged
(so no attachment), and the message list is left unchanged on every path. -/
theorem C3_capture_error_reporting (st : ChatState) (env : CaptureEnv) :
    ((captureScreen st env).2.alerted.isSome = true ↔ env.supported = false) ∧
    (env.supported = false →
      (captureScreen st env).2.alerted =
        some "Screen capture is not supported in your browser" ∧
      (captureScreen st env).1 = st) ∧
    (env.supported = true →
      (env.displayMediaError.isSome = true ∨ env.playOk = false ∨ env.ctxOk = false) →
      (captureScreen st env).2.alerted = none ∧
      (captureScreen st env).2.consoleError = true ∧
      (captureScreen st env).1 = st) ∧
    ((captureScreen st env).2.tracksStopped = false → (captureScreen st env).1 = st) ∧
    (captureScreen st env).1.messages = st.messages := by
  obtain ⟨sup, dme, play, ctx, url⟩ := env
  cases sup <;> cases dme <;> cases play <;> cases ctx <;> simp [captureScreen]

/-- Witness for C3 (amended): the rasterization failure after a successful
acquisition and decode (no drawing context) shows no alert, logs to the
console, and leaves the page state unchanged. -/
theorem C3_capture_error_reporting_witness :
    (captureScreen { messages := [], nextId := 0, tempScreenshot := none }
        { supported := true, displayMediaError := none, playOk := true
          ctxOk := false, dataURL := "shot" }).2.alerted = none ∧
    (captureScreen { messages := [], nextId := 0, tempScreenshot := none }
        { supported := true, displayMediaError := none, playOk := true
          ctxOk := false, dataURL := "shot" }).2.consoleError = true ∧
    (captureScreen { messages := [], nextId := 0, tempScreenshot := none }
        { supported := true, displayMediaError := none, playOk := true
          ctxOk := false, dataURL := "shot" }).1 =
      { messages := [], nextId := 0, tempScreenshot := none } :=
  (C3_capture_error_reporting
    { messages := [], nextId := 0, tempScreenshot := none }
    { supported := true, displayMediaError := none, playOk := true
      ctxOk := false, dataURL := "shot" }).2.2.1 rfl (Or.inr (Or.inr rfl))

end ScreenshotChat
